import Mathlib

/-!
Verification of the dining-concierge chatbot repository.

Shallow embedding of the frontend chat logic (`frontend/assets/js/chat.js`
and the richer picker-enabled variant of the same file), of the CloudWatch
scheduling script (`other-scripts/setup_cloudwatch_trigger.sh`), and of the
asynchronous fulfillment pipeline components whose code is not part of the
repository snapshot (the LF2 worker and its search resolver), which are
modelled from the specification.

JavaScript strings are embedded as Lean `String`/`List Char`; JS numbers in
the fragments under study are small non-negative integers and are embedded
as `Nat` (with explicit case splits where JS would go negative).
-/

namespace Concierge

/-! ## Quick-reply data (frontend/assets/js/chat.js) -/

/-- A quick-reply button: display label and the message it sends. -/
structure QRItem where
  label : String
  msg : String
deriving DecidableEq, Repr

/-- `QR_CUISINES` from chat.js: the twelve cuisine quick-reply buttons. -/
def QR_CUISINES : List QRItem :=
  [ ⟨"🍣 Japanese", "Japanese"⟩,
    ⟨"🍕 Italian", "Italian"⟩,
    ⟨"🥢 Chinese", "Chinese"⟩,
    ⟨"🌮 Mexican", "Mexican"⟩,
    ⟨"🍛 Indian", "Indian"⟩,
    ⟨"🍜 Thai", "Thai"⟩,
    ⟨"🥩 Korean", "Korean"⟩,
    ⟨"🥐 French", "French"⟩,
    ⟨"🫒 Mediterranean", "Mediterranean"⟩,
    ⟨"🍔 American", "American"⟩,
    ⟨"🍲 Vietnamese", "Vietnamese"⟩,
    ⟨"🥘 Spanish", "Spanish"⟩ ]

/-- `QR_LOCATIONS` from chat.js: the eight service-area quick-reply buttons. -/
def QR_LOCATIONS : List QRItem :=
  [ ⟨"🗽 Manhattan", "Manhattan"⟩,
    ⟨"🌉 Brooklyn", "Brooklyn"⟩,
    ⟨"🌆 Queens", "Queens"⟩,
    ⟨"🏙 Bronx", "Bronx"⟩,
    ⟨"🏝 Staten Island", "Staten Island"⟩,
    ⟨"🌇 Jersey City", "Jersey City"⟩,
    ⟨"🚢 Hoboken", "Hoboken"⟩,
    ⟨"🏗 Long Island City", "Long Island City"⟩ ]

/-- `QR_DATE` from chat.js. -/
def QR_DATE : List QRItem :=
  [ ⟨"📅 Today", "Today"⟩,
    ⟨"📅 Tomorrow", "Tomorrow"⟩,
    ⟨"📅 Saturday", "Saturday"⟩,
    ⟨"📅 Sunday", "Sunday"⟩ ]

/-- `QR_TIME` from chat.js. -/
def QR_TIME : List QRItem :=
  [ ⟨"🕕 5:00 PM", "5:00 PM"⟩,
    ⟨"🕖 6:00 PM", "6:00 PM"⟩,
    ⟨"🕖 6:30 PM", "6:30 PM"⟩,
    ⟨"🕖 7:00 PM", "7:00 PM"⟩,
    ⟨"🕗 7:30 PM", "7:30 PM"⟩,
    ⟨"🕗 8:00 PM", "8:00 PM"⟩,
    ⟨"🕗 8:30 PM", "8:30 PM"⟩,
    ⟨"🕘 9:00 PM", "9:00 PM"⟩ ]

/-- `QR_PARTY` from chat.js: the party-size quick-reply buttons. -/
def QR_PARTY : List QRItem :=
  [ ⟨"👤 1", "1"⟩,
    ⟨"👥 2", "2"⟩,
    ⟨"👥 3", "3"⟩,
    ⟨"👥 4", "4"⟩,
    ⟨"👥 5", "5"⟩,
    ⟨"👥 6", "6"⟩,
    ⟨"👥 8", "8"⟩,
    ⟨"👥 10", "10"⟩ ]

/-- `QR_REPEAT` from chat.js. -/
def QR_REPEAT : List QRItem :=
  [ ⟨"✅ Same as last time", "Same"⟩,
    ⟨"🔄 Something different", "Something different"⟩ ]

/-- The twelve cuisine categories of the fixed enumerated domain (README "Data"). -/
def cuisineDomain : List String :=
  ["Japanese", "Italian", "Chinese", "Mexican", "Indian", "Thai",
   "Korean", "French", "Mediterranean", "American", "Vietnamese", "Spanish"]

/-- The eight service areas of the fixed enumerated domain (README "Data"). -/
def areaDomain : List String :=
  ["Manhattan", "Brooklyn", "Queens", "Bronx", "Staten Island",
   "Jersey City", "Hoboken", "Long Island City"]

/-! ## Party picker (picker-enabled chat.js, `buildPartyPicker`) -/

/-- One entry of the `sizes` array inside `buildPartyPicker`. -/
structure PartySize where
  num : Nat
  icon : String
  sizeLabel : String
deriving DecidableEq, Repr

/-- The `sizes` array of `buildPartyPicker`: each rendered button carries
`data-party = num`. -/
def partyPickerSizes : List PartySize :=
  [ ⟨1, "👤", "1 person"⟩,
    ⟨2, "👥", "2 people"⟩,
    ⟨3, "👥", "3 people"⟩,
    ⟨4, "👥", "4 people"⟩,
    ⟨5, "👥", "5 people"⟩,
    ⟨6, "👥", "6 people"⟩,
    ⟨8, "👥", "8 people"⟩,
    ⟨10, "👥", "10+ people"⟩ ]

/-- The `data-party` values offered by `buildPartyPicker` (the only values a
confirm click can submit, via `confirmBtn.dataset.selectedParty`). -/
def partyPickerValues : List Nat := partyPickerSizes.map (·.num)

/-! ## Character-level string primitives

Lean 4.14's built-in `String` loops do not reduce in the kernel, so the JS
string operations used by chat.js are embedded as executable functions on
`List Char` (a `String` is exactly a packed `List Char`). -/

/-- JS `String.prototype.toLowerCase`, character-wise (all the text the
chatbot handles is ASCII, where `Char.toLower` agrees with JS). -/
def toLowerL (l : List Char) : List Char := l.map Char.toLower

/-- `isPrefixL p t`: `p` is a prefix of `t` (Boolean, by char equality). -/
def isPrefixL : List Char → List Char → Bool
  | [], _ => true
  | _ :: _, [] => false
  | p :: ps, t :: ts => p = t && isPrefixL ps ts

/-- JS `t.includes(pat)`: `pat` occurs as a contiguous substring of `t`. -/
def containsL (t pat : List Char) : Bool :=
  match t with
  | [] => isPrefixL pat []
  | _ :: ts => isPrefixL pat t || containsL ts pat

/-- The lowercased character data of a string (`botText.toLowerCase()`). -/
def lowerText (s : String) : List Char := toLowerL s.data

/-- `t.includes(pat)` with a string pattern, on already-lowercased text. -/
def inc (t : List Char) (pat : String) : Bool := containsL t pat.data

/-- `'0' ≤ c ≤ '9'` (the JS regex class `\d`). -/
def isDigitB (c : Char) : Bool := 48 ≤ c.toNat && c.toNat ≤ 57

/-- Numeric value of a decimal digit character. -/
def digitVal (c : Char) : Nat := c.toNat - 48

/-- Value of a digit string, most significant first (JS `parseInt` on an
all-digit capture group). -/
def digitsToNat (l : List Char) : Nat := l.foldl (fun a c => a * 10 + digitVal c) 0

/-- Whitespace as matched by JS `\s` / trimmed by `String.prototype.trim`
(the ASCII subset, which covers every string the chat UI produces). -/
def isJsSpace (c : Char) : Bool := c = ' ' || c = '\t' || c = '\n' || c = '\r'

/-- JS `String.prototype.trim` on character data. -/
def trimL (l : List Char) : List Char :=
  ((l.dropWhile isJsSpace).reverse.dropWhile isJsSpace).reverse

/-- JS `String.prototype.trim`. -/
def jsTrim (s : String) : String := ⟨trimL s.data⟩

/-- JS `parseInt` on a string that starts with digits: value of the leading
digit run, `none` when there is none. -/
def parseNat (s : String) : Option Nat :=
  let ds := s.data.takeWhile isDigitB
  if ds = [] then none else some (digitsToNat ds)

/-- Strip `p` from the front of `l`, or fail. -/
def dropPrefixL : List Char → List Char → Option (List Char)
  | [], l => some l
  | _ :: _, [] => none
  | c :: ps, x :: xs => if c = x then dropPrefixL ps xs else none

/-- JS `str.replace(/c/g, r)` for a single-character pattern `c`: every
occurrence of `c` is replaced by `r`; replacement text is not rescanned. -/
def replaceAllChar (c : Char) (r : List Char) : List Char → List Char
  | [] => []
  | x :: xs => if x = c then r ++ replaceAllChar c r xs else x :: replaceAllChar c r xs

/-! ## `escapeHtml` (chat.js) -/

/-- `escapeHtml` from chat.js on character data: the five chained global
single-character replacements, `&` first. -/
def escapeHtmlL (l : List Char) : List Char :=
  replaceAllChar '\n' "<br>".data
    (replaceAllChar '"' "&quot;".data
      (replaceAllChar '>' "&gt;".data
        (replaceAllChar '<' "&lt;".data
          (replaceAllChar '&' "&amp;".data l))))

/-- `escapeHtml` from chat.js. -/
def escapeHtml (s : String) : String := ⟨escapeHtmlL s.data⟩

/-! ## `detectQuickReplySet` — picker-enabled chat.js variant

The richer chat.js variant returns, per branch, either a button set or one
of three input pickers. Each branch condition below is the exact Boolean
test of the corresponding `if` in the source, on the lowercased text. -/

/-- Result of the picker-enabled `detectQuickReplySet`. -/
inductive QRSet
  | repeatButtons
  | locationButtons
  | cuisineButtons
  | datePicker
  | timePicker
  | partyPicker
deriving DecidableEq, Repr

/-- First branch: "same as last time" offer. -/
def repeatCond (t : List Char) : Bool :=
  inc t "same" && inc t "different" && inc t "last time"

/-- Second branch: location ask or invalid-location re-ask. -/
def locationCond (t : List Char) : Bool :=
  inc t "city" || inc t "area" || inc t "location" ||
  inc t "dine in" || inc t "looking to dine" || inc t "where" ||
  inc t "manhattan" || inc t "brooklyn" || inc t "which area"

/-- Third branch: cuisine ask or invalid-cuisine re-ask. -/
def cuisineCond (t : List Char) : Bool :=
  inc t "cuisine" || inc t "food" || inc t "craving" ||
  inc t "what kind" || inc t "type of" ||
  inc t "japanese" || inc t "italian" || inc t "choose from"

/-- Fourth branch: date ask or past-date re-ask. -/
def dateCond (t : List Char) : Bool :=
  inc t "what date" || inc t "which date" || inc t "what day" ||
  inc t "future date" || inc t "valid date" || inc t "in the past" ||
  (inc t "date" && !inc t "up to date")

/-- Fifth branch: time ask or invalid-time re-ask. -/
def timeCond (t : List Char) : Bool :=
  inc t "what time" || inc t "which time" ||
  inc t "valid time" || inc t "like 7pm" ||
  (inc t "time" && !inc t "next time" && !inc t "last time")

/-- Sixth branch: party-size ask or out-of-range re-ask. -/
def partyCond (t : List Char) : Bool :=
  inc t "party" || inc t "how many" || inc t "number of people" ||
  inc t "guests" || inc t "people in your" ||
  inc t "between 1 and 20" || inc t "valid number of people"

/-- `detectQuickReplySet` from the picker-enabled chat.js variant. -/
def detectQuickReplySet (botText : String) : Option QRSet :=
  let t := lowerText botText
  if repeatCond t then some .repeatButtons
  else if locationCond t then some .locationButtons
  else if cuisineCond t then some .cuisineButtons
  else if dateCond t then some .datePicker
  else if timeCond t then some .timePicker
  else if partyCond t then some .partyPicker
  else none

/-! ## `detectQuickReplySet` and message rendering — frontend/assets/js/chat.js -/

/-- Result of the frontend chat.js `detectQuickReplySet` (six button sets). -/
inductive FeQRSet
  | repeatB
  | locationsB
  | cuisinesB
  | dateB
  | timeB
  | partyB
deriving DecidableEq, Repr

/-- Location branch of the frontend variant. -/
def feLocationCond (t : List Char) : Bool :=
  inc t "city" || inc t "area" || inc t "location" ||
  inc t "dine in" || inc t "looking to dine" || inc t "where"

/-- Cuisine branch of the frontend variant. -/
def feCuisineCond (t : List Char) : Bool :=
  inc t "cuisine" || inc t "food" || inc t "craving" ||
  inc t "what kind" || inc t "type of"

/-- Date branch of the frontend variant. -/
def feDateCond (t : List Char) : Bool :=
  inc t "what date" || inc t "which date" || inc t "what day" ||
  (inc t "date" && !inc t "up to date")

/-- Time branch of the frontend variant. -/
def feTimeCond (t : List Char) : Bool :=
  inc t "what time" || inc t "which time" ||
  (inc t "time" && !inc t "next time" && !inc t "last time")

/-- Party branch of the frontend variant. -/
def fePartyCond (t : List Char) : Bool :=
  inc t "party" || inc t "how many" || inc t "number of people" ||
  inc t "guests" || inc t "people in your"

/-- `detectQuickReplySet` from frontend/assets/js/chat.js. -/
def feDetectQuickReplySet (botText : String) : Option FeQRSet :=
  let t := lowerText botText
  if repeatCond t then some .repeatB
  else if feLocationCond t then some .locationsB
  else if feCuisineCond t then some .cuisinesB
  else if feDateCond t then some .dateB
  else if feTimeCond t then some .timeB
  else if fePartyCond t then some .partyB
  else none

/-- The `title` field returned with each frontend quick-reply set. -/
def feQRTitle : FeQRSet → Option String
  | .repeatB => none
  | .locationsB => some "📍 Pick a location"
  | .cuisinesB => some "🍽 Pick a cuisine"
  | .dateB => some "📅 Pick a date"
  | .timeB => some "🕐 Pick a time"
  | .partyB => some "👥 Party size"

/-- The `items` field returned with each frontend quick-reply set. -/
def feQRItems : FeQRSet → List QRItem
  | .repeatB => QR_REPEAT
  | .locationsB => QR_LOCATIONS
  | .cuisinesB => QR_CUISINES
  | .dateB => QR_DATE
  | .timeB => QR_TIME
  | .partyB => QR_PARTY

/-- The button markup of `buildQuickReplies`: one `qr-btn` per item, label
and `data-msg` both passed through `escapeHtml`. -/
def qrButtonsHtml (items : List QRItem) : String :=
  String.join (items.map fun r =>
    "<button class=\"qr-btn\" data-msg=\"" ++ escapeHtml r.msg ++ "\">" ++
      escapeHtml r.label ++ "</button>")

/-- The full quick-replies container for one detected set. -/
def qrContainerHtml (set : FeQRSet) : String :=
  let titleHtml :=
    match feQRTitle set with
    | some ti => "<div class=\"qr-title\">" ++ escapeHtml ti ++ "</div>"
    | none => ""
  "<div class=\"quick-replies\">" ++ titleHtml ++ qrButtonsHtml (feQRItems set) ++ "</div>"

/-- `buildQuickReplies` from frontend chat.js. -/
def buildQuickReplies (botText : String) : String :=
  match feDetectQuickReplySet botText with
  | none => ""
  | some set => qrContainerHtml set

/-- `CONFIRM_PHRASES` from chat.js. -/
def CONFIRM_PHRASES : List String :=
  ["you're all set", "all set", "expect my suggestions",
   "will notify", "suggestions shortly", "sent to your email"]

/-- `isConfirmation` from chat.js (`lower.indexOf(p) !== -1`). -/
def isConfirmation (text : String) : Bool :=
  CONFIRM_PHRASES.any fun p => containsL (lowerText text) p.data

/-- `buildConfirmCard` from chat.js. -/
def buildConfirmCard : String :=
  "<div class=\"confirm-card\"><div class=\"confirm-card-title\">&#10022;&nbsp; Request Received</div>Restaurant recommendations will be sent to your email shortly. Check your inbox in a few minutes.</div>"

/-- The innerHTML assembled by `addUserMessage` (the `formatTime(new Date())`
string is an opaque parameter `tmStr`). -/
def addUserMessageHtml (tmStr : String) (text : String) : String :=
  "<div class=\"msg-avatar\">&#128100;</div>" ++
  "<div class=\"msg-content\">" ++
  "<div class=\"bubble bubble-user\">" ++ escapeHtml text ++ "</div>" ++
  "<div class=\"msg-time\">" ++ tmStr ++ "</div>" ++
  "</div>"

/-- The innerHTML assembled by `addBotMessage` in frontend chat.js: the bot
bubble, then the confirm card when the text is a confirmation, else the
quick replies, then the time stamp. -/
def addBotMessageHtml (tmStr : String) (text : String) : String :=
  "<div class=\"msg-avatar\">&#127869;</div>" ++
  "<div class=\"msg-content\">" ++
  "<div class=\"msg-sender\">Concierge</div>" ++
  "<div class=\"bubble bubble-bot\">" ++ escapeHtml text ++ "</div>" ++
  (if isConfirmation text then buildConfirmCard else "") ++
  (if isConfirmation text then "" else buildQuickReplies text) ++
  "<div class=\"msg-time\">" ++ tmStr ++ "</div>" ++
  "</div>"

/-- Text-independent user-row skeleton: the message text reaches it only as
the already-escaped argument. -/
def renderUserRow (escaped : String) (tmStr : String) : String :=
  "<div class=\"msg-avatar\">&#128100;</div>" ++
  "<div class=\"msg-content\">" ++
  "<div class=\"bubble bubble-user\">" ++ escaped ++ "</div>" ++
  "<div class=\"msg-time\">" ++ tmStr ++ "</div>" ++
  "</div>"

/-- Text-independent bot-row skeleton: the raw message text reaches it only
through the escaped argument, a confirmation flag and a detected set. -/
def renderBotRow (conf : Bool) (detected : Option FeQRSet)
    (escaped : String) (tmStr : String) : String :=
  "<div class=\"msg-avatar\">&#127869;</div>" ++
  "<div class=\"msg-content\">" ++
  "<div class=\"msg-sender\">Concierge</div>" ++
  "<div class=\"bubble bubble-bot\">" ++ escaped ++ "</div>" ++
  (if conf then buildConfirmCard else "") ++
  (if conf then ""
   else match detected with
        | none => ""
        | some set => qrContainerHtml set) ++
  "<div class=\"msg-time\">" ++ tmStr ++ "</div>" ++
  "</div>"

/-! ## Date picker (picker-enabled chat.js, `buildDateGrid`)

`buildDateGrid(month, year, today)` renders one `date-cell` button per day
of the month (after weekday headers and date-less filler cells, which carry
no `data-date` and are never selectable; the embedding keeps the day cells).
`today` is `new Date()` — a calendar date plus a time of day. JS `Date`
order on the midnight instants `new Date(y, m, d)` with `m ∈ [0,11]` and
`d` a valid day is exactly lexicographic order on `(y, m, d)`. -/

/-- `new Date()` at grid-build time: local calendar date (JS 0-based month,
1-based day) plus minutes elapsed since local midnight. -/
structure NowInstant where
  year : Nat
  month : Nat
  day : Nat
  minuteOfDay : Nat
deriving DecidableEq, Repr

/-- One rendered `date-cell` button. -/
structure DayCell where
  day : Nat
  month : Nat
  year : Nat
  isToday : Bool
  disabled : Bool
deriving DecidableEq, Repr

/-- Gregorian leap year, as implemented by JS `Date`. -/
def isLeapYear (y : Nat) : Bool := (y % 4 = 0 && y % 100 ≠ 0) || y % 400 = 0

/-- `new Date(year, month + 1, 0).getDate()` for `month ∈ [0, 11]` (the only
values the picker passes: the current month, and neighbours wrapped into
range by the prev/next handlers). -/
def daysInMonth (month year : Nat) : Nat :=
  match month with
  | 0 => 31
  | 1 => if isLeapYear year then 29 else 28
  | 2 => 31
  | 3 => 30
  | 4 => 31
  | 5 => 30
  | 6 => 31
  | 7 => 31
  | 8 => 30
  | 9 => 31
  | 10 => 30
  | _ => 31

/-- Strict calendar-date order (JS midnight-`Date` comparison). -/
def dateLt (y1 m1 d1 y2 m2 d2 : Nat) : Bool :=
  y1 < y2 || (y1 = y2 && (m1 < m2 || (m1 = m2 && d1 < d2)))

/-- `cellDate.toDateString() === today.toDateString()`: same calendar date. -/
def sameDate (y m d : Nat) (now : NowInstant) : Bool :=
  y = now.year && m = now.month && d = now.day

/-- `cellDate < today` where `cellDate` is the local midnight of `(y,m,d)`
and `today` carries a time of day. -/
def midnightLtNow (y m d : Nat) (now : NowInstant) : Bool :=
  dateLt y m d now.year now.month now.day ||
  (sameDate y m d now && 0 < now.minuteOfDay)

/-- The `date-cell` rendered for one day of the loop in `buildDateGrid`:
`isPast = cellDate < today && !isToday`; the cell gets the `disabled`
attribute (and the `date-cell-disabled` class the click handler rejects)
exactly when `isPast`. -/
def dateCellFor (month year : Nat) (now : NowInstant) (day : Nat) : DayCell :=
  let isToday := sameDate year month day now
  let isPast := midnightLtNow year month day now && !isToday
  ⟨day, month, year, isToday, isPast⟩

/-- `buildDateGrid` from the picker-enabled chat.js: day cells `1` through
`daysInMonth`. -/
def buildDateGrid (month year : Nat) (now : NowInstant) : List DayCell :=
  (List.range (daysInMonth month year)).map fun i => dateCellFor month year now (i + 1)

/-! ## Time picker (picker-enabled chat.js)

The display is a string; every click inside the picker first runs
`parseTime` on it (`/(\d+):(\d+)\s*(AM|PM)/` followed by an unguarded
`parts[1]`), then either updates the parsed value and re-renders it with
`updateTimeDisplay`, or overwrites the display with a preset. The regex
searches anywhere in the string; every display this picker shows starts
with the matched portion, so the anchored parse below is an exact model on
those strings. -/

/-- The third capture group of `parseTime`. -/
inductive Meridiem
  | am
  | pm
deriving DecidableEq, Repr

/-- A parsed time: `{hour, minute, period}` as built by `parseTime`. -/
structure TimeVal where
  hour : Nat
  minute : Nat
  period : Meridiem
deriving DecidableEq, Repr

/-- Rendering of the period field. -/
def meridiemStr : Meridiem → String
  | .am => "AM"
  | .pm => "PM"

/-- Decimal digits of `n`, most significant first (JS number-to-string for
the non-negative integers the picker handles). -/
def natDigitsAux : Nat → Nat → List Char
  | 0, _ => []
  | fuel + 1, n =>
    if n < 10 then [Char.ofNat (48 + n)]
    else natDigitsAux fuel (n / 10) ++ [Char.ofNat (48 + n % 10)]

/-- Decimal digits of `n`, most significant first. -/
def natDigits (n : Nat) : List Char := natDigitsAux (n + 1) n

/-- `updateTimeDisplay` from the picker-enabled chat.js: the display string
`hour + ':' + (minute < 10 ? '0' + minute : minute) + ' ' + period`. -/
def updateTimeDisplay (t : TimeVal) : String :=
  ⟨natDigits t.hour ++ ':' ::
    ((if t.minute < 10 then '0' :: natDigits t.minute else natDigits t.minute) ++
      ' ' :: (meridiemStr t.period).data)⟩

/-- `parseTime` from the picker-enabled chat.js: `none` models the regex
matching nothing, where the unguarded `parts[1]` access would throw. -/
def parseTime (s : String) : Option TimeVal :=
  let l := s.data
  let ds1 := l.takeWhile isDigitB
  let r1 := l.dropWhile isDigitB
  if ds1 = [] then none
  else
    match r1 with
    | ':' :: r2 =>
      let ds2 := r2.takeWhile isDigitB
      let r3 := r2.dropWhile isDigitB
      if ds2 = [] then none
      else
        match dropPrefixL "AM".data (r3.dropWhile isJsSpace) with
        | some _ => some ⟨digitsToNat ds1, digitsToNat ds2, .am⟩
        | none =>
          match dropPrefixL "PM".data (r3.dropWhile isJsSpace) with
          | some _ => some ⟨digitsToNat ds1, digitsToNat ds2, .pm⟩
          | none => none
    | _ => none

/-- The clicks the time-picker handler distinguishes. -/
inductive TimeOp
  | hourUp
  | hourDown
  | minUp
  | minDown
  | preset (i : Fin 4)
  | confirm
deriving DecidableEq

/-- The four `data-preset` strings of `buildTimePicker`. -/
def presetStr : Fin 4 → String
  | 0 => "5:00 PM"
  | 1 => "6:00 PM"
  | 2 => "7:00 PM"
  | 3 => "8:00 PM"

/-- The arrow-button updates of the click handler. `hour - 1` and
`minute - 15` go negative in JS exactly when the Nat conditions below hold,
and are then reset to `12` / `45`. -/
def applyTimeOp : TimeOp → TimeVal → TimeVal
  | .hourUp, t => { t with hour := t.hour % 12 + 1 }
  | .hourDown, t => { t with hour := if t.hour ≤ 1 then 12 else t.hour - 1 }
  | .minUp, t => { t with minute := (t.minute + 15) % 60 }
  | .minDown, t => { t with minute := if t.minute < 15 then 45 else t.minute - 15 }
  | _, t => t

/-- One click inside the time picker: parse the current display (a failed
parse crashes the handler — `none`), then update or overwrite the display. -/
def timeStep (display : String) (op : TimeOp) : Option String :=
  match parseTime display with
  | none => none
  | some t =>
    match op with
    | .preset i => some (presetStr i)
    | .confirm => some display
    | .hourUp => some (updateTimeDisplay (applyTimeOp .hourUp t))
    | .hourDown => some (updateTimeDisplay (applyTimeOp .hourDown t))
    | .minUp => some (updateTimeDisplay (applyTimeOp .minUp t))
    | .minDown => some (updateTimeDisplay (applyTimeOp .minDown t))

/-- A click sequence from the initial display `5:00 PM` of `buildTimePicker`. -/
def timeRun (ops : List TimeOp) : Option String :=
  ops.foldl (fun acc op => acc.bind fun s => timeStep s op) (some "5:00 PM")

/-- The display invariant: hour in `[1, 12]`, minute a quarter hour. -/
def ValidTime (t : TimeVal) : Prop :=
  1 ≤ t.hour ∧ t.hour ≤ 12 ∧ t.minute ∈ [0, 15, 30, 45]

/-! ## Send-path state machine (chat.js `sendMessage` and its listeners)

chat.js runs on the single-threaded JS event loop, so the UI is a state
machine stepped by whole events: user actions and the (delayed) completion
callbacks of `callChatbotApi`. `rendered` counts message rows appended to
the DOM and `requestsIssued` counts calls to `callChatbotApi`. -/

/-- The mutable frontend state relevant to the send path. -/
structure UiState where
  sending : Bool
  inputValue : String
  inFlight : Nat
  requestsIssued : Nat
  rendered : Nat
deriving DecidableEq, Repr

/-- State at page load. -/
def initUiState : UiState := ⟨false, "", 0, 0, 0⟩

/-- `sendMessage(overrideText)` from chat.js: trim, bail when empty or a
send is in progress, else mark sending, clear the input, render the user
message and issue the API request. -/
def sendMessage (overrideText : Option String) (st : UiState) : UiState :=
  let text := jsTrim (match overrideText with | some t => t | none => st.inputValue)
  if text = "" || st.sending then st
  else
    { st with
      sending := true
      inputValue := ""
      inFlight := st.inFlight + 1
      requestsIssued := st.requestsIssued + 1
      rendered := st.rendered + 1 }

/-- The events that can reach the send path. -/
inductive UiEvent
  | typeInput (s : String)
  | clickSend
  | pressEnter (shiftKey : Bool)
  | clickQuickReply (msg : String)
  | apiSettled (ok : Bool)

/-- One event-loop step. The three send entry points (`sendBtn` click,
`Enter` keydown, delegated `qr-btn` click) all call `sendMessage`; every
completion path of `callChatbotApi` (success, parse failure, network
error) resets `sending`. A completion callback can only run for a
previously issued request, hence the `inFlight = 0` guard. -/
def uiStep (st : UiState) : UiEvent → UiState
  | .typeInput s => { st with inputValue := s }
  | .clickSend => sendMessage none st
  | .pressEnter shiftKey => if shiftKey then st else sendMessage none st
  | .clickQuickReply m => if m = "" then st else sendMessage (some m) st
  | .apiSettled _ =>
    if st.inFlight = 0 then st
    else { st with inFlight := st.inFlight - 1, sending := false, rendered := st.rendered + 1 }

/-- Run an event trace from page load. -/
def uiRun (es : List UiEvent) : UiState := es.foldl uiStep initUiState

/-! ## CloudWatch schedule (other-scripts/setup_cloudwatch_trigger.sh) -/

/-- An EventBridge rule as created by `aws events put-rule`. -/
structure EventRule where
  name : String
  scheduleExpression : String
deriving DecidableEq, Repr

/-- An entry of the `--targets` list of `aws events put-targets`. -/
structure RuleTarget where
  id : String
  arn : String
deriving DecidableEq, Repr

/-- An `aws events put-targets` invocation. -/
structure PutTargetsCall where
  rule : String
  targets : List RuleTarget
deriving DecidableEq, Repr

/-- A Lambda function ARN. -/
def lambdaArn (region account fn : String) : String :=
  "arn:aws:lambda:" ++ region ++ ":" ++ account ++ ":function:" ++ fn

/-- The `put-rule` call of setup_cloudwatch_trigger.sh. -/
def triggerLf2Rule : EventRule :=
  ⟨"trigger-lf2-every-minute", "rate(1 minute)"⟩

/-- The `put-targets` call of setup_cloudwatch_trigger.sh (the account id
is read from `aws sts get-caller-identity`; the region is `us-east-1`). -/
def lf2PutTargets (account : String) : PutTargetsCall :=
  ⟨"trigger-lf2-every-minute", [⟨"1", lambdaArn "us-east-1" account "LF2"⟩]⟩

/-- Interval in seconds of an EventBridge `rate(value unit)` schedule
expression (EventBridge semantics for the scheduler that invokes LF2). -/
def rateSeconds (s : String) : Option Nat :=
  match dropPrefixL "rate(".data s.data with
  | none => none
  | some rest =>
    let ds := rest.takeWhile isDigitB
    if ds = [] then none
    else
      match rest.dropWhile isDigitB with
      | ' ' :: u =>
        let n := digitsToNat ds
        if u = "second)".data || u = "seconds)".data then some n
        else if u = "minute)".data || u = "minutes)".data then some (n * 60)
        else if u = "hour)".data || u = "hours)".data then some (n * 3600)
        else if u = "day)".data || u = "days)".data then some (n * 86400)
        else none
      | _ => none

/-- The function-name component of a Lambda ARN: what follows `function:`. -/
def arnFunctionName (a : String) : Option String :=
  (go a.data).map fun l => ⟨l⟩
where
  /-- First suffix following an occurrence of `function:`. -/
  go : List Char → Option (List Char)
  | [] => none
  | x :: xs =>
    match dropPrefixL "function:".data (x :: xs) with
    | some r => some r
    | none => go xs

/-! ## Fulfillment Worker and Search Resolver (LF2 — modelled from the spec)

The repository snapshot does not include the LF2 worker source
(`lambda_functions/LF2/lambda_function.py` is referenced by the deployment
scripts and README but absent), so the worker's per-message processing and
the search resolver are modelled from spec §4.5–§4.8. -/

/-- Modelled from the spec (§3): the unit of work carried by a queue
message; the missing LF2 source deserializes it from the message body. -/
structure FulfillmentRequest where
  requestId : String
  userKey : String
  location : String
  cuisine : String
  partySize : Nat
  contactAddress : String
deriving DecidableEq, Repr

/-- Modelled from the spec (§3): a queue message wrapping a serialized
`FulfillmentRequest` plus its delivery envelope. -/
structure QueueMessage where
  body : FulfillmentRequest
  deliveryCount : Nat
deriving DecidableEq, Repr

/-- Modelled from the spec (§4.5): worker-visible durable state — the
short-lived "already notified" markers keyed by `requestId`, the log of
notifications recorded as sent, and the acknowledged messages. -/
structure WorkerState where
  notifiedMarkers : List String
  sentLog : List String
  ackedIds : List String
deriving DecidableEq, Repr

/-- Outcomes of the downstream calls during one processing attempt: whether
the Search Resolver produced a candidate set, whether hydration returned at
least one record, and whether the Notifier delivery succeeded. -/
structure StepOutcome where
  searchOk : Bool
  hydratedNonempty : Bool
  deliverOk : Bool
deriving DecidableEq, Repr

/-- Modelled from the spec (§4.5, §4.7, §4.8 — the missing LF2 worker):
per-message processing with the mandated `requestId` de-duplication
marker. An already-notified message is acknowledged without re-sending;
transient failures (search, empty hydration, send failure) leave the
message unacknowledged; a successful delivery records the notification as
sent, writes the marker, and only then acknowledges. -/
def processMessage (env : StepOutcome) (st : WorkerState) (m : QueueMessage) : WorkerState :=
  if m.body.requestId ∈ st.notifiedMarkers then
    { st with ackedIds := m.body.requestId :: st.ackedIds }
  else if !env.searchOk then st
  else if !env.hydratedNonempty then st
  else if env.deliverOk then
    { st with
      sentLog := m.body.requestId :: st.sentLog
      notifiedMarkers := m.body.requestId :: st.notifiedMarkers
      ackedIds := m.body.requestId :: st.ackedIds }
  else st

/-- Modelled from the spec (§3): the minimal index projection / primary
store record the Search Resolver filters on. -/
structure CandidateEntry where
  entityId : String
  cuisine : String
  location : String
deriving DecidableEq, Repr

/-- Modelled from the spec (§4.6): the fallback scan of the primary store
filtered by cuisine and location. -/
def fallbackMatches (store : List CandidateEntry) (cuisine location : String) : List String :=
  (store.filter fun r => r.cuisine = cuisine && r.location = location).map (·.entityId)

/-- Modelled from the spec (§4.6 — the missing LF2 search resolver):
`search` returns the primary path's IDs when it succeeds; on primary
failure it scans the primary store and draws a client-side random sample
(`shuffle` models the random draw) of up to `sampleSize` matches. -/
def search (primary : Except Unit (List String)) (shuffle : List String → List String)
    (store : List CandidateEntry) (cuisine location : String) (sampleSize : Nat) :
    Except Unit (List String) :=
  match primary with
  | .ok ids => .ok ids
  | .error _ => .ok ((shuffle (fallbackMatches store cuisine location)).take sampleSize)

/-! ## Fixtures and invariant predicates used by the theorems -/

/-- The send-path invariant: never more than one request in flight, and the
`sending` flag is set exactly while one is. -/
def UiInv (st : UiState) : Prop :=
  st.inFlight ≤ 1 ∧ (st.sending = true ↔ st.inFlight = 1)

/-- A concrete grid-build instant: Oct 11 2026 (a Sunday), 10:00 local. -/
def nowOct11 : NowInstant := ⟨2026, 9, 11, 600⟩

/-- A concrete primary store sample used to instantiate the search theorem. -/
def sampleStore : List CandidateEntry :=
  [⟨"r1", "Japanese", "Manhattan"⟩,
   ⟨"r2", "Japanese", "Manhattan"⟩,
   ⟨"r3", "Italian", "Brooklyn"⟩]

/-! # Theorems -/

/-! ## `replaceAllChar` / `escapeHtml` lemmas -/

theorem mem_replaceAllChar {x c : Char} {r : List Char} {l : List Char}
    (h : x ∈ replaceAllChar c r l) : x ∈ r ∨ (x ∈ l ∧ x ≠ c) := by
  induction l with
  | nil => simp [replaceAllChar] at h
  | cons a as ih =>
    simp only [replaceAllChar] at h
    by_cases hac : a = c
    · rw [if_pos hac] at h
      rcases List.mem_append.mp h with h1 | h2
      · exact Or.inl h1
      · rcases ih h2 with h3 | ⟨h4, h5⟩
        · exact Or.inl h3
        · exact Or.inr ⟨List.mem_cons_of_mem _ h4, h5⟩
    · rw [if_neg hac] at h
      rcases List.mem_cons.mp h with rfl | h2
      · exact Or.inr ⟨List.mem_cons_self _ _, hac⟩
      · rcases ih h2 with h3 | ⟨h4, h5⟩
        · exact Or.inl h3
        · exact Or.inr ⟨List.mem_cons_of_mem _ h4, h5⟩

theorem not_mem_replaceAllChar {x c : Char} {r l : List Char}
    (hr : x ∉ r) (hl : x ∉ l) : x ∉ replaceAllChar c r l := fun h => by
  rcases mem_replaceAllChar h with h1 | ⟨h2, _⟩
  · exact hr h1
  · exact hl h2

theorem not_mem_replaceAllChar_self {x : Char} {r l : List Char}
    (hr : x ∉ r) : x ∉ replaceAllChar x r l := fun h => by
  rcases mem_replaceAllChar h with h1 | ⟨_, h3⟩
  · exact hr h1
  · exact h3 rfl

theorem replaceAllChar_of_not_mem {c : Char} {r l : List Char}
    (h : c ∉ l) : replaceAllChar c r l = l := by
  induction l with
  | nil => rfl
  | cons a as ih =>
    simp only [replaceAllChar]
    rw [if_neg (fun hac => h (by rw [← hac]; exact List.mem_cons_self a as)),
      ih fun hc => h (List.mem_cons_of_mem _ hc)]

theorem escapeHtmlL_no_specials {l : List Char} (hn : '\n' ∉ l) :
    '<' ∉ escapeHtmlL l ∧ '>' ∉ escapeHtmlL l ∧ '"' ∉ escapeHtmlL l := by
  unfold escapeHtmlL
  have h2 : '<' ∉ replaceAllChar '<' "&lt;".data (replaceAllChar '&' "&amp;".data l) :=
    not_mem_replaceAllChar_self (by decide)
  have h3lt : '<' ∉ replaceAllChar '>' "&gt;".data
      (replaceAllChar '<' "&lt;".data (replaceAllChar '&' "&amp;".data l)) :=
    not_mem_replaceAllChar (by decide) h2
  have h3gt : '>' ∉ replaceAllChar '>' "&gt;".data
      (replaceAllChar '<' "&lt;".data (replaceAllChar '&' "&amp;".data l)) :=
    not_mem_replaceAllChar_self (by decide)
  have h4lt : '<' ∉ replaceAllChar '"' "&quot;".data (replaceAllChar '>' "&gt;".data
      (replaceAllChar '<' "&lt;".data (replaceAllChar '&' "&amp;".data l))) :=
    not_mem_replaceAllChar (by decide) h3lt
  have h4gt : '>' ∉ replaceAllChar '"' "&quot;".data (replaceAllChar '>' "&gt;".data
      (replaceAllChar '<' "&lt;".data (replaceAllChar '&' "&amp;".data l))) :=
    not_mem_replaceAllChar (by decide) h3gt
  have h4q : '"' ∉ replaceAllChar '"' "&quot;".data (replaceAllChar '>' "&gt;".data
      (replaceAllChar '<' "&lt;".data (replaceAllChar '&' "&amp;".data l))) :=
    not_mem_replaceAllChar_self (by decide)
  have hn1 : '\n' ∉ replaceAllChar '&' "&amp;".data l :=
    not_mem_replaceAllChar (by decide) hn
  have hn2 : '\n' ∉ replaceAllChar '<' "&lt;".data (replaceAllChar '&' "&amp;".data l) :=
    not_mem_replaceAllChar (by decide) hn1
  have hn3 : '\n' ∉ replaceAllChar '>' "&gt;".data
      (replaceAllChar '<' "&lt;".data (replaceAllChar '&' "&amp;".data l)) :=
    not_mem_replaceAllChar (by decide) hn2
  have hn4 : '\n' ∉ replaceAllChar '"' "&quot;".data (replaceAllChar '>' "&gt;".data
      (replaceAllChar '<' "&lt;".data (replaceAllChar '&' "&amp;".data l))) :=
    not_mem_replaceAllChar (by decide) hn3
  rw [replaceAllChar_of_not_mem hn4]
  exact ⟨h4lt, h4gt, h4q⟩

/-- C8: for every input string containing no newline, `escapeHtml` returns
a string with no raw `<`, `>` or `"` (ampersands are escaped first, so no
entity is re-broken into raw characters), and both `addUserMessage` and
`addBotMessage` insert the message text into their innerHTML only through
`escapeHtml` — the raw text reaches the text-independent row skeletons
solely as the escaped string (plus the confirmation flag and the detected
quick-reply set, which select among fixed markup). -/
theorem escapeHtml_and_render_safety :
    (∀ s : String, '\n' ∉ s.data →
      '<' ∉ (escapeHtml s).data ∧ '>' ∉ (escapeHtml s).data ∧ '"' ∉ (escapeHtml s).data) ∧
    (∀ tmStr text : String,
      addUserMessageHtml tmStr text = renderUserRow (escapeHtml text) tmStr) ∧
    (∀ tmStr text : String,
      addBotMessageHtml tmStr text =
        renderBotRow (isConfirmation text) (feDetectQuickReplySet text)
          (escapeHtml text) tmStr) := by
  refine ⟨fun s hn => escapeHtmlL_no_specials hn, fun tmStr text => rfl, fun tmStr text => ?_⟩
  cases h : feDetectQuickReplySet text with
  | none => simp [addBotMessageHtml, renderBotRow, buildQuickReplies, h]
  | some set => simp [addBotMessageHtml, renderBotRow, buildQuickReplies, h]

theorem escapeHtml_and_render_safety_witness :
    ('\n' ∉ ("a<b>\"&c" : String).data) ∧
    '<' ∉ (escapeHtml "a<b>\"&c").data ∧
    '>' ∉ (escapeHtml "a<b>\"&c").data ∧
    '"' ∉ (escapeHtml "a<b>\"&c").data :=
  ⟨by decide,
    (escapeHtml_and_render_safety.1 "a<b>\"&c" (by decide)).1,
    (escapeHtml_and_render_safety.1 "a<b>\"&c" (by decide)).2.1,
    (escapeHtml_and_render_safety.1 "a<b>\"&c" (by decide)).2.2⟩

/-! ## Enumerated domains -/

/-- C4: the fixed enumerated domains are exactly the twelve cuisine
categories and eight service areas: `QR_CUISINES` sends exactly the twelve
cuisine values, each exactly once, and `QR_LOCATIONS` exactly the eight
area values, each exactly once. -/
theorem quickReply_domains_exact :
    QR_CUISINES.map (·.msg) = cuisineDomain ∧
    cuisineDomain.Nodup ∧ cuisineDomain.length = 12 ∧
    QR_LOCATIONS.map (·.msg) = areaDomain ∧
    areaDomain.Nodup ∧ areaDomain.length = 8 :=
  ⟨by decide, by decide, rfl, by decide, by decide, rfl⟩

/-- C5: every party-size value the UI can submit is an integer in
`[1, 20]`: the `QR_PARTY` messages parse to exactly `1,2,3,4,5,6,8,10`,
the `buildPartyPicker` `data-party` values are exactly the same set, and
all these values lie within the bound. -/
theorem party_values_in_range :
    QR_PARTY.map (fun q => parseNat q.msg) =
      [some 1, some 2, some 3, some 4, some 5, some 6, some 8, some 10] ∧
    partyPickerValues = [1, 2, 3, 4, 5, 6, 8, 10] ∧
    (∀ n ∈ [1, 2, 3, 4, 5, 6, 8, 10], 1 ≤ n ∧ n ≤ 20) :=
  ⟨by decide, by decide, by decide⟩

theorem party_values_in_range_witness :
    (10 ∈ [1, 2, 3, 4, 5, 6, 8, 10]) ∧ 1 ≤ 10 ∧ 10 ≤ 20 :=
  ⟨by decide, party_values_in_range.2.2 10 (by decide)⟩

/-! ## Schedule rule -/

/-- C6: the deployed schedule rule's expression is `rate(1 minute)` — a
60-second fixed interval — and the `put-targets` call attaches exactly one
target to that rule: the LF2 function's ARN. -/
theorem lf2_schedule_rule_correct :
    triggerLf2Rule.scheduleExpression = "rate(1 minute)" ∧
    rateSeconds triggerLf2Rule.scheduleExpression = some 60 ∧
    (∀ account, (lf2PutTargets account).rule = triggerLf2Rule.name ∧
      (lf2PutTargets account).targets = [⟨"1", lambdaArn "us-east-1" account "LF2"⟩]) ∧
    arnFunctionName (lambdaArn "us-east-1" "123456789012" "LF2") = some "LF2" :=
  ⟨rfl, by decide, fun _ => ⟨rfl, rfl⟩, by decide⟩

/-! ## Validation re-prompts -/

/-- C7: each validation re-prompt surfaces the violated slot's input
control. For a bot message matching none of the earlier branches of
`detectQuickReplySet`: one containing "between 1 and 20" yields the party
picker, one containing "in the past" yields the date picker, and one
containing "valid time" but neither "next time" nor "last time" yields the
time picker. -/
theorem detectQuickReplySet_error_reprompts :
    ∀ botText : String,
      repeatCond (lowerText botText) = false →
      locationCond (lowerText botText) = false →
      cuisineCond (lowerText botText) = false →
      ((inc (lowerText botText) "in the past" = true →
          detectQuickReplySet botText = some .datePicker) ∧
       (dateCond (lowerText botText) = false →
          inc (lowerText botText) "valid time" = true →
          inc (lowerText botText) "next time" = false →
          inc (lowerText botText) "last time" = false →
          detectQuickReplySet botText = some .timePicker) ∧
       (dateCond (lowerText botText) = false →
          timeCond (lowerText botText) = false →
          inc (lowerText botText) "between 1 and 20" = true →
          detectQuickReplySet botText = some .partyPicker)) := by
  intro s h1 h2 h3
  refine ⟨fun hp => ?_, fun hd hv _ _ => ?_, fun hd ht hb => ?_⟩
  · have hdate : dateCond (lowerText s) = true := by simp [dateCond, hp]
    simp [detectQuickReplySet, h1, h2, h3, hdate]
  · have htime : timeCond (lowerText s) = true := by simp [timeCond, hv]
    simp [detectQuickReplySet, h1, h2, h3, hd, htime]
  · have hparty : partyCond (lowerText s) = true := by simp [partyCond, hb]
    simp [detectQuickReplySet, h1, h2, h3, hd, ht, hparty]

theorem detectQuickReplySet_error_reprompts_witness :
    detectQuickReplySet "Please pick a number between 1 and 20." = some .partyPicker :=
  (detectQuickReplySet_error_reprompts "Please pick a number between 1 and 20."
      (by decide) (by decide) (by decide)).2.2 (by decide) (by decide) (by decide)

/-! ## Date grid -/

theorem isPast_iff_dateLt (y m d : Nat) (now : NowInstant) :
    ((midnightLtNow y m d now && !sameDate y m d now) = true) ↔
      dateLt y m d now.year now.month now.day = true := by
  rcases now with ⟨ty, tm, td, mu⟩
  simp only [midnightLtNow, sameDate, dateLt, Bool.and_eq_true, Bool.or_eq_true,
    Bool.not_eq_true', Bool.and_eq_false_iff, decide_eq_true_eq, decide_eq_false_iff_not]
  omega

/-- C2 counterexample: with the current instant Oct 11 2026, 10:00, the
grid for October 2026 renders the cell for Oct 11 — today, hence a
calendar date that is NOT strictly in the future — without the `disabled`
attribute, so the picker lets the user select it. -/
theorem buildDateGrid_today_cell_enabled :
    dateCellFor 9 2026 nowOct11 11 ∈ buildDateGrid 9 2026 nowOct11 ∧
    (dateCellFor 9 2026 nowOct11 11).disabled = false ∧
    (dateCellFor 9 2026 nowOct11 11).day = 11 ∧
    dateLt nowOct11.year nowOct11.month nowOct11.day
      (dateCellFor 9 2026 nowOct11 11).year
      (dateCellFor 9 2026 nowOct11 11).month
      (dateCellFor 9 2026 nowOct11 11).day = false := by
  refine ⟨by decide, by decide, by decide, by decide⟩

/-- C2 (amended): a day cell of `buildDateGrid` carries the `disabled`
attribute exactly when its calendar date is strictly earlier than the
current date; today's own cell and all later cells are enabled, so a date
selected through the picker is today or later (today itself remains
selectable, not strictly in the future). -/
theorem buildDateGrid_disabled_iff_past :
    ∀ (month year : Nat) (now : NowInstant) (c : DayCell),
      c ∈ buildDateGrid month year now →
      (c.disabled = true ↔ dateLt c.year c.month c.day now.year now.month now.day = true) := by
  intro month year now c hc
  simp only [buildDateGrid, List.mem_map, List.mem_range] at hc
  obtain ⟨i, _, rfl⟩ := hc
  exact isPast_iff_dateLt year month (i + 1) now

theorem buildDateGrid_disabled_iff_past_witness :
    ((dateCellFor 9 2026 nowOct11 10).disabled = true ↔
      dateLt (dateCellFor 9 2026 nowOct11 10).year
        (dateCellFor 9 2026 nowOct11 10).month
        (dateCellFor 9 2026 nowOct11 10).day
        nowOct11.year nowOct11.month nowOct11.day = true) :=
  buildDateGrid_disabled_iff_past 9 2026 nowOct11 (dateCellFor 9 2026 nowOct11 10) (by decide)

/-! ## Send-path single flight -/

theorem uiInv_sendMessage (o : Option String) {st : UiState} (h : UiInv st) :
    UiInv (sendMessage o st) := by
  obtain ⟨h1, h2⟩ := h
  by_cases hc : jsTrim (match o with | some t => t | none => st.inputValue) = "" ∨
      st.sending = true
  · have heq : sendMessage o st = st := by
      rcases hc with h' | h' <;> simp [sendMessage, h']
    rw [heq]
    exact ⟨h1, h2⟩
  · obtain ⟨ht, hs'⟩ := not_or.mp hc
    have hs : st.sending = false := by
      cases hsnd : st.sending
      · rfl
      · exact absurd hsnd hs'
    have hfl : st.inFlight = 0 := by
      have hne : st.inFlight ≠ 1 := fun hone => by
        rw [h2.mpr hone] at hs
        exact Bool.noConfusion hs
      omega
    have heq : sendMessage o st =
        { st with
          sending := true
          inputValue := ""
          inFlight := st.inFlight + 1
          requestsIssued := st.requestsIssued + 1
          rendered := st.rendered + 1 } := by
      simp [sendMessage, ht, hs]
    rw [heq]
    refine ⟨by simp [hfl], by simp [hfl]⟩

theorem uiInv_run (es : List UiEvent) : ∀ st : UiState, UiInv st → UiInv (es.foldl uiStep st) := by
  induction es with
  | nil => exact fun st h => h
  | cons e rest ih =>
    intro st h
    rw [List.foldl_cons]
    refine ih _ ?_
    obtain ⟨h1, h2⟩ := h
    cases e with
    | typeInput s => exact ⟨h1, h2⟩
    | clickSend => exact uiInv_sendMessage none ⟨h1, h2⟩
    | pressEnter shiftKey =>
      cases shiftKey with
      | true => exact ⟨h1, h2⟩
      | false => exact uiInv_sendMessage none ⟨h1, h2⟩
    | clickQuickReply m =>
      by_cases hm : m = ""
      · have heq : uiStep st (.clickQuickReply m) = st := by simp [uiStep, hm]
        rw [heq]
        exact ⟨h1, h2⟩
      · have heq : uiStep st (.clickQuickReply m) = sendMessage (some m) st := by
          simp [uiStep, hm]
        rw [heq]
        exact uiInv_sendMessage (some m) ⟨h1, h2⟩
    | apiSettled ok =>
      by_cases hfl : st.inFlight = 0
      · have heq : uiStep st (.apiSettled ok) = st := by simp [uiStep, hfl]
        rw [heq]
        exact ⟨h1, h2⟩
      · have heq : uiStep st (.apiSettled ok) =
            { st with
              inFlight := st.inFlight - 1
              sending := false
              rendered := st.rendered + 1 } := by
          simp [uiStep, hfl]
        rw [heq]
        have hone : st.inFlight = 1 := by omega
        refine ⟨by simp [hone], by simp [hone]⟩

/-- C9: at most one chatbot API request is ever in flight. `sendMessage`
is a no-op (renders nothing, issues no request, changes no state) whenever
the `sending` flag is set or the trimmed text is empty; and along every
event trace through the send entry points (send click, Enter keydown,
delegated quick-reply click) and the API completion callbacks, the number
of in-flight requests stays at most one, with `sending` set exactly while
one is in flight. -/
theorem sendMessage_single_flight :
    (∀ (o : Option String) (st : UiState),
      (jsTrim (match o with | some t => t | none => st.inputValue) = "" ∨ st.sending = true) →
      sendMessage o st = st) ∧
    (∀ es : List UiEvent,
      (uiRun es).inFlight ≤ 1 ∧ ((uiRun es).sending = true ↔ (uiRun es).inFlight = 1)) := by
  constructor
  · intro o st h
    rcases h with h | h
    · simp [sendMessage, h]
    · simp [sendMessage, h]
  · intro es
    exact uiInv_run es initUiState ⟨Nat.zero_le 1, by simp [initUiState]⟩

theorem sendMessage_single_flight_witness :
    sendMessage none ⟨true, "hi", 1, 1, 2⟩ = ⟨true, "hi", 1, 1, 2⟩ :=
  sendMessage_single_flight.1 none ⟨true, "hi", 1, 1, 2⟩ (Or.inr rfl)

/-! ## Worker idempotence (modelled from the spec) -/

theorem processMessage_sentLog_cases (env : StepOutcome) (st : WorkerState) (m : QueueMessage) :
    (processMessage env st m).sentLog = st.sentLog ∨
    ((processMessage env st m).sentLog = m.body.requestId :: st.sentLog ∧
      m.body.requestId ∈ (processMessage env st m).notifiedMarkers) := by
  unfold processMessage
  by_cases h1 : m.body.requestId ∈ st.notifiedMarkers
  · simp [h1]
  · simp only [h1, if_neg, if_false]
    by_cases h2 : env.searchOk
    · by_cases h3 : env.hydratedNonempty
      · by_cases h4 : env.deliverOk
        · simp [h1, h2, h3, h4]
        · simp [h1, h2, h3, h4]
      · simp [h1, h2, h3]
    · simp [h1, h2]

theorem processMessage_marker_noop (env : StepOutcome) (st : WorkerState) (m : QueueMessage)
    (h : m.body.requestId ∈ st.notifiedMarkers) :
    (processMessage env st m).sentLog = st.sentLog := by
  simp [processMessage, h]

/-- C1: processing the same queue message twice (simulated redelivery)
records at most one additional notification as sent, whatever the
downstream outcomes of each attempt: the "already notified" marker written
with the first successful send makes the redelivered copy acknowledge
without re-sending. -/
theorem processMessage_redelivery_at_most_one_send :
    ∀ (env1 env2 : StepOutcome) (st : WorkerState) (m : QueueMessage),
      (processMessage env2 (processMessage env1 st m) m).sentLog.length ≤
        st.sentLog.length + 1 ∧
      (processMessage env2 (processMessage env1 st m) m).sentLog.count m.body.requestId ≤
        st.sentLog.count m.body.requestId + 1 := by
  intro env1 env2 st m
  rcases processMessage_sentLog_cases env1 st m with hA | ⟨hB, hBm⟩
  · rcases processMessage_sentLog_cases env2 (processMessage env1 st m) m with hC | ⟨hD, _⟩
    · rw [hC, hA]; exact ⟨Nat.le_succ _, Nat.le_succ _⟩
    · rw [hD, hA]
      exact ⟨by simp, by simp [List.count_cons]⟩
  · rw [processMessage_marker_noop env2 _ m hBm, hB]
    exact ⟨by simp, by simp [List.count_cons]⟩

/-! ## Search fallback (modelled from the spec) -/

/-- C3: when the primary path fails, `search` still returns successfully —
never propagating the error — with up to `sampleSize` IDs all drawn from
the primary-store records matching both cuisine and location, and with all
matches returned whenever fewer than `sampleSize` exist. -/
theorem search_fallback_correct :
    ∀ (shuffle : List String → List String) (store : List CandidateEntry)
      (cuisine location : String) (sampleSize : Nat) (e : Unit),
      List.Perm (shuffle (fallbackMatches store cuisine location))
        (fallbackMatches store cuisine location) →
      ∃ ids, search (.error e) shuffle store cuisine location sampleSize = .ok ids ∧
        ids.length = min sampleSize (fallbackMatches store cuisine location).length ∧
        (∀ x ∈ ids, x ∈ fallbackMatches store cuisine location) ∧
        ((fallbackMatches store cuisine location).length ≤ sampleSize →
          ∀ x ∈ fallbackMatches store cuisine location, x ∈ ids) := by
  intro shuffle store cuisine location sampleSize e hp
  refine ⟨(shuffle (fallbackMatches store cuisine location)).take sampleSize, rfl, ?_, ?_, ?_⟩
  · rw [List.length_take, hp.length_eq]
  · intro x hx
    exact hp.subset (List.take_subset _ _ hx)
  · intro hle x hx
    have hlen : (shuffle (fallbackMatches store cuisine location)).length ≤ sampleSize := by
      rw [hp.length_eq]; exact hle
    rw [List.take_of_length_le hlen]
    exact hp.mem_iff.mpr hx

theorem search_fallback_correct_witness :
    List.Perm (id (fallbackMatches sampleStore "Japanese" "Manhattan"))
      (fallbackMatches sampleStore "Japanese" "Manhattan") ∧
    (∃ ids, search (.error ()) id sampleStore "Japanese" "Manhattan" 3 = .ok ids ∧
      ids.length = min 3 (fallbackMatches sampleStore "Japanese" "Manhattan").length ∧
      (∀ x ∈ ids, x ∈ fallbackMatches sampleStore "Japanese" "Manhattan") ∧
      ((fallbackMatches sampleStore "Japanese" "Manhattan").length ≤ 3 →
        ∀ x ∈ fallbackMatches sampleStore "Japanese" "Manhattan", x ∈ ids)) :=
  ⟨List.Perm.refl _,
    search_fallback_correct id sampleStore "Japanese" "Manhattan" 3 () (List.Perm.refl _)⟩

/-! ## Time picker -/

theorem validTime_applyTimeOp (op : TimeOp) {t : TimeVal} (h : ValidTime t) :
    ValidTime (applyTimeOp op t) := by
  obtain ⟨hh, mm, p⟩ := t
  obtain ⟨h1, h2, hm⟩ := h
  dsimp only at h1 h2 hm
  cases op with
  | hourUp =>
    refine ⟨?_, ?_, hm⟩
    · show 1 ≤ hh % 12 + 1
      omega
    · show hh % 12 + 1 ≤ 12
      have h12 : hh % 12 < 12 := Nat.mod_lt hh (by decide)
      omega
  | hourDown =>
    refine ⟨?_, ?_, hm⟩
    · show 1 ≤ if hh ≤ 1 then 12 else hh - 1
      split <;> omega
    · show (if hh ≤ 1 then 12 else hh - 1) ≤ 12
      split <;> omega
  | minUp =>
    refine ⟨h1, h2, ?_⟩
    show (mm + 15) % 60 ∈ [0, 15, 30, 45]
    simp only [List.mem_cons, List.not_mem_nil, or_false] at hm ⊢
    rcases hm with rfl | rfl | rfl | rfl <;> decide
  | minDown =>
    refine ⟨h1, h2, ?_⟩
    show (if mm < 15 then 45 else mm - 15) ∈ [0, 15, 30, 45]
    simp only [List.mem_cons, List.not_mem_nil, or_false] at hm ⊢
    rcases hm with rfl | rfl | rfl | rfl <;> decide
  | preset i => exact ⟨h1, h2, hm⟩
  | confirm => exact ⟨h1, h2, hm⟩

theorem parseTime_updateTimeDisplay {t : TimeVal} (h : ValidTime t) :
    parseTime (updateTimeDisplay t) = some t := by
  obtain ⟨hh, mm, p⟩ := t
  obtain ⟨h1, h2, hm⟩ := h
  simp only [List.mem_cons, List.not_mem_nil, or_false] at hm
  interval_cases hh <;> rcases hm with rfl | rfl | rfl | rfl <;> cases p <;> decide

theorem presetStr_valid (i : Fin 4) :
    ∃ t, ValidTime t ∧ presetStr i = updateTimeDisplay t := by
  fin_cases i
  · exact ⟨⟨5, 0, .pm⟩, ⟨by decide, by decide, by decide⟩, by decide⟩
  · exact ⟨⟨6, 0, .pm⟩, ⟨by decide, by decide, by decide⟩, by decide⟩
  · exact ⟨⟨7, 0, .pm⟩, ⟨by decide, by decide, by decide⟩, by decide⟩
  · exact ⟨⟨8, 0, .pm⟩, ⟨by decide, by decide, by decide⟩, by decide⟩

theorem timeStep_valid {t : TimeVal} (h : ValidTime t) (op : TimeOp) :
    ∃ t2, ValidTime t2 ∧ timeStep (updateTimeDisplay t) op = some (updateTimeDisplay t2) := by
  have hp := parseTime_updateTimeDisplay h
  cases op with
  | preset i =>
    obtain ⟨tp, htp1, htp2⟩ := presetStr_valid i
    exact ⟨tp, htp1, by simp [timeStep, hp, htp2]⟩
  | confirm => exact ⟨t, h, by simp [timeStep, hp]⟩
  | hourUp => exact ⟨applyTimeOp .hourUp t, validTime_applyTimeOp _ h, by simp [timeStep, hp]⟩
  | hourDown => exact ⟨applyTimeOp .hourDown t, validTime_applyTimeOp _ h, by simp [timeStep, hp]⟩
  | minUp => exact ⟨applyTimeOp .minUp t, validTime_applyTimeOp _ h, by simp [timeStep, hp]⟩
  | minDown => exact ⟨applyTimeOp .minDown t, validTime_applyTimeOp _ h, by simp [timeStep, hp]⟩

theorem timeRun_aux (ops : List TimeOp) :
    ∀ t : TimeVal, ValidTime t →
      ∃ t2, ValidTime t2 ∧
        ops.foldl (fun acc op => acc.bind fun s => timeStep s op)
          (some (updateTimeDisplay t)) = some (updateTimeDisplay t2) := by
  induction ops with
  | nil => exact fun t h => ⟨t, h, rfl⟩
  | cons op rest ih =>
    intro t h
    obtain ⟨t1, ht1, hs⟩ := timeStep_valid h op
    rw [List.foldl_cons]
    have hb : ((some (updateTimeDisplay t)).bind fun s => timeStep s op) =
        some (updateTimeDisplay t1) := by simpa using hs
    rw [hb]
    exact ih t1 ht1

/-- C10: the time picker's display always matches `H:MM AM|PM` with hour in
`[1, 12]` and minute in `{0, 15, 30, 45}`: from the initial `5:00 PM`,
every sequence of hour/minute arrows, preset clicks and confirms keeps the
display a rendering of such a state (so the unguarded `parts[1]` in
`parseTime` never dereferences a failed match), and `parseTime` applied to
`updateTimeDisplay`'s rendering of a state returns that state. -/
theorem timePicker_invariant :
    (∀ ops : List TimeOp, ∃ t, ValidTime t ∧ timeRun ops = some (updateTimeDisplay t)) ∧
    (∀ t : TimeVal, ValidTime t → parseTime (updateTimeDisplay t) = some t) := by
  constructor
  · intro ops
    have h0 : ValidTime ⟨5, 0, .pm⟩ := ⟨by decide, by decide, by decide⟩
    have hdisp : ("5:00 PM" : String) = updateTimeDisplay ⟨5, 0, .pm⟩ := by decide
    unfold timeRun
    rw [hdisp]
    exact timeRun_aux ops ⟨5, 0, .pm⟩ h0
  · exact fun t h => parseTime_updateTimeDisplay h

theorem timePicker_invariant_witness :
    ValidTime ⟨7, 30, .pm⟩ ∧
    parseTime (updateTimeDisplay ⟨7, 30, .pm⟩) = some ⟨7, 30, .pm⟩ :=
  ⟨⟨by decide, by decide, by decide⟩,
    timePicker_invariant.2 ⟨7, 30, .pm⟩ ⟨by decide, by decide, by decide⟩⟩
